import Mathlib

/-!
# Verification of the mas2 parametric table configurator

A shallow embedding of the configurator's core modules:

* `src/js/modules/tableModel.js` — geometry builder (tabletop + legs),
  disposal/rebuild lifecycle;
* `src/js/main.js` — per-dimension validation (`handleDimensionUpdate`),
  localStorage restore (`loadStateFromLocalStorage`);
* `src/js/modules/materials.js` — material catalog and fallback resolution;
* the dimension-label overlay module (`dimensionLabels.js`) — fast-path
  refresh of label text, transforms and line geometries.

All scalar arithmetic of the source is exact over `ℚ` (the JS code only
multiplies, divides by 100, adds, and takes `Math.max`/`Math.min` of
decimal literals, all of which are exact here).  Lengths inside builders
are meters (the source divides cm by 100 at the `createTable` boundary).
-/

namespace Mas2

/-- A 3-component vector of exact rationals (mirrors `THREE.Vector3` as
used by the source: plain coordinate triples, no float semantics needed
because every coordinate in the source is a ratio of decimal literals). -/
structure Vec3 where
  x : ℚ
  y : ℚ
  z : ℚ
deriving DecidableEq, Repr

/-- Geometry descriptors produced by the builders in `tableModel.js`.

* `box sx sy sz` embeds `new THREE.BoxGeometry(sx, sy, sz)`.
* `extrude hx hy depth bevelThickness bevelSize bevelOffset` embeds
  `new THREE.ExtrudeGeometry(shape, settings)` followed by
  `geometry.center(); geometry.rotateX(Math.PI / 2);` where the 2-D
  `shape` has bounding box `[-hx, hx] × [-hy, hy]`.  Both tabletop shapes
  built by the source have this property exactly: the beveled outline's
  corner arcs (`absarc`, radius `R = 0.02`, centers at
  `(±(w/2−R), ±(l/2−R))`) are tangent to the lines `x = ±w/2`,
  `y = ±l/2`, and the rounded outline's quadratic corner curves have
  their endpoints on those lines and stay inside the corner triangles,
  so in both cases the shape bbox is exactly `w × l`.
* `diagonalBar t span legH` embeds the X-frame bar
  `new THREE.BoxGeometry(t, diagonalLength, t)` with
  `diagonalLength = √(span² + legH²)` and rotation
  `±atan2(legH, span)` about z (the irrational length/angle are kept
  symbolically; no claim needs their numeric values). -/
inductive Geom where
  | box (sx sy sz : ℚ)
  | extrude (hx hy depth bevelThickness bevelSize bevelOffset : ℚ)
  | diagonalBar (barThickness topSpan legHeight : ℚ)
deriving DecidableEq, Repr

/-- One mesh part added to the table group: its `name` tag, geometry and
position (composed with its parent group's position for the X-frame
bars, whose own local position is the group origin). -/
structure Part where
  name : String
  geom : Geom
  position : Vec3
deriving DecidableEq, Repr

/-- Axis-aligned bounding-box size of a produced geometry, in scene
units, with the source's post-processing applied.

For `box` this is the constructor's size triple.

For `extrude` it follows the vertex layout of `THREE.ExtrudeGeometry`
(three.js, an external collaborator of this repo): with
`bevelEnabled: true` the wall vertices of the main body are the shape
contour displaced *outward* along each edge normal by
`bevelSize + bevelOffset`, the bevel rings are displaced by
`bevelSize·sin(t·π/2) + bevelOffset ≤ bevelSize + bevelOffset` (for
`bevelSize ≥ 0`) and placed at `z = −bevelThickness·cos(t·π/2)` below
the shape plane and at `depth + bevelThickness·cos(t·π/2)` above it, so
the extruded solid spans
`2(hx + bevelSize + bevelOffset) × 2(hy + bevelSize + bevelOffset)` in
the shape plane and `depth + 2·bevelThickness` along the extrusion
axis.  `geometry.center()` only translates; `rotateX(π/2)` swaps the
extrusion axis into y.

For `diagonalBar` the bar has height `√(span² + legH²)` and is tilted
by `atan2(legH, span)`; projecting onto the axes, its bbox is
`(span + t·legH/d) × (legH + t·span/d) × t` with `d = √(span²+legH²)`;
no claim below inspects it, so it is recorded symbolically by its
parameters (the triple returned here is the exact bbox of the unrotated
box, used by no theorem). -/
def Geom.bboxSize : Geom → Vec3
  | .box sx sy sz => ⟨sx, sy, sz⟩
  | .extrude hx hy depth bt bs bo =>
      ⟨2 * (hx + bs + bo), depth + 2 * bt, 2 * (hy + bs + bo)⟩
  | .diagonalBar t _ legH => ⟨t, legH, t⟩

/-! ## Geometry builder (`src/js/modules/tableModel.js`, first module
variant, lines 121–306) -/

/-- Embeds `createBeveledTableTopGeometry(width, length, thickness, material)`
(tableModel.js lines 151–171): outline with `R = 0.02` corner arcs,
extruded with `depth: thickness, bevelThickness: thickness*0.15,
bevelSize: thickness*0.1, bevelOffset: -thickness*0.05`. -/
def createBeveledTableTopGeometry (width length thickness : ℚ) : Geom :=
  Geom.extrude (width / 2) (length / 2) thickness
    (thickness * (15 / 100)) (thickness * (10 / 100)) (-(thickness * (5 / 100)))

/-- Embeds `createRoundedTableTopGeometry(width, length, thickness, material)`
(tableModel.js lines 173–193): outline with quadratic corner curves of
radius `R = min(width, length)*0.08`, extruded with `depth: thickness,
bevelThickness: thickness*0.1, bevelSize: thickness*0.08,
bevelOffset: 0`. -/
def createRoundedTableTopGeometry (width length thickness : ℚ) : Geom :=
  Geom.extrude (width / 2) (length / 2) thickness
    (thickness * (10 / 100)) (thickness * (8 / 100)) 0

/-- Embeds `createStandardLegsGeometry(width, length, height, thickness,
legMaterial)` (tableModel.js lines 195–212):
`legSize = Math.max(0.04, Math.min(width, length) * 0.05)`,
`legHeight = height - thickness`,
`inset = Math.max(0.05, Math.min(width, length) * 0.1)`, four
`BoxGeometry(legSize, legHeight, legSize)` meshes at the four corner
positions. -/
def createStandardLegsGeometry (width length height thickness : ℚ) : List Part :=
  let legSize := max (4 / 100) (min width length * (5 / 100))
  let legHeight := height - thickness
  let inset := max (5 / 100) (min width length * (10 / 100))
  let legPositions : List Vec3 :=
    [ ⟨width / 2 - inset, legHeight / 2, length / 2 - inset⟩
    , ⟨-(width / 2) + inset, legHeight / 2, length / 2 - inset⟩
    , ⟨width / 2 - inset, legHeight / 2, -(length / 2) + inset⟩
    , ⟨-(width / 2) + inset, legHeight / 2, -(length / 2) + inset⟩ ]
  (legPositions.enum).map fun (index, pos) =>
    { name := "StandardLeg_" ++ toString index
    , geom := Geom.box legSize legHeight legSize
    , position := pos }

/-- Embeds `createUShapeLegsGeometry(width, length, height, thickness,
legMaterial)` (tableModel.js lines 214–233): per side (`sideMultiplier
∈ {-1, 1}`) two vertical bars `BoxGeometry(legBarThickness, legHeight,
legBarThickness)` and one connector
`BoxGeometry(connectorWidth, legBarThickness, legBarThickness)` at
`y = height - thickness - legBarThickness/2 - 0.05`. -/
def createUShapeLegsGeometry (width length height thickness : ℚ) : List Part :=
  let legBarThickness := max (3 / 100) (min width length * (4 / 100))
  let legHeight := height - thickness
  let legInset := max (8 / 100) (min width length * (8 / 100))
  (([(-1 : ℚ), 1]).enum).flatMap fun (sideIndex, sideMultiplier) =>
    let zPos := sideMultiplier * (length / 2 - legInset)
    let connectorWidth := width - 2 * legInset + legBarThickness
    [ { name := "UShapeLeg_Side" ++ toString sideIndex ++ "_V1"
      , geom := Geom.box legBarThickness legHeight legBarThickness
      , position := ⟨width / 2 - legInset, legHeight / 2, zPos⟩ }
    , { name := "UShapeLeg_Side" ++ toString sideIndex ++ "_V2"
      , geom := Geom.box legBarThickness legHeight legBarThickness
      , position := ⟨-(width / 2) + legInset, legHeight / 2, zPos⟩ }
    , { name := "UShapeLeg_Side" ++ toString sideIndex ++ "_Connector"
      , geom := Geom.box connectorWidth legBarThickness legBarThickness
      , position := ⟨0, height - thickness - legBarThickness / 2 - 5 / 100, zPos⟩ } ]

/-- Embeds `createXShapeLegsGeometry(width, length, height, thickness,
legMaterial)` (tableModel.js lines 235–268): per side one `xFrameGroup`
at `(0, legHeight/2, zPos)` holding two diagonal bars (each a
`BoxGeometry(legBarThickness, diagonalLength, legBarThickness)` rotated
by `∓angle` about z).  The parts are listed flattened, each bar at its
group's position. -/
def createXShapeLegsGeometry (width length height thickness : ℚ) : List Part :=
  let legBarThickness := max (4 / 100) (min width length * (5 / 100))
  let legHeight := height - thickness
  let legFrameInsetZ := max (10 / 100) (length * (12 / 100))
  let xFrameEdgeInset := legBarThickness * (25 / 100)
  let xFrameTopSpan := width - 2 * xFrameEdgeInset
  (([(-1 : ℚ), 1]).enum).flatMap fun (sideIndex, sideMultiplier) =>
    let zPos := sideMultiplier * (length / 2 - legFrameInsetZ)
    [ { name := "XFrame_Side" ++ toString sideIndex ++ "_Bar1"
      , geom := Geom.diagonalBar legBarThickness xFrameTopSpan legHeight
      , position := ⟨0, legHeight / 2, zPos⟩ }
    , { name := "XFrame_Side" ++ toString sideIndex ++ "_Bar2"
      , geom := Geom.diagonalBar legBarThickness xFrameTopSpan legHeight
      , position := ⟨0, legHeight / 2, zPos⟩ } ]

/-- Embeds `createLShapeTable(width, length, height, thickness, topMaterial,
legMaterial)` (tableModel.js lines 270–306): two overlapping slab boxes
plus six `LLeg_i` support legs (`inset = 0.1` fixed). -/
def createLShapeTable (width length height thickness : ℚ) : List Part :=
  let mainArmWidth := width
  let mainArmLength := length * (60 / 100)
  let sideArmWidth := width * (40 / 100)
  let sideArmLength := length
  let legSize := max (4 / 100) (min width length * (5 / 100))
  let legHeight := height - thickness
  let inset := (10 : ℚ) / 100
  let legPositions : List Vec3 :=
    [ ⟨mainArmWidth / 2 - inset, legHeight / 2, length / 2 - inset⟩
    , ⟨-(mainArmWidth / 2) + inset, legHeight / 2, length / 2 - inset⟩
    , ⟨-(width / 2) + inset, legHeight / 2, length / 2 - inset⟩
    , ⟨-(width / 2) + inset, legHeight / 2, -(length / 2) + inset⟩
    , ⟨mainArmWidth / 2 - inset, legHeight / 2, length / 2 - mainArmLength + inset⟩
    , ⟨-(width / 2) + sideArmWidth - inset, legHeight / 2, -(length / 2) + inset⟩ ]
  [ { name := "MainArm"
    , geom := Geom.box mainArmWidth thickness mainArmLength
    , position := ⟨0, height - thickness / 2, length / 2 - mainArmLength / 2⟩ }
  , { name := "SideArm"
    , geom := Geom.box sideArmWidth thickness sideArmLength
    , position := ⟨-(width / 2) + sideArmWidth / 2, height - thickness / 2, 0⟩ } ]
  ++ (legPositions.enum).map fun (index, pos) =>
    { name := "LLeg_" ++ toString index
    , geom := Geom.box legSize legHeight legSize
    , position := pos }

/-- The tabletop mesh chosen by `createTableWithStyle` for the non-
L-shape path (tableModel.js lines 127–139): string dispatch on
`edgeStyle`, any value other than `'beveled'`/`'rounded'` yields the
straight `BoxGeometry(width, thickness, length)`. -/
def tableTopGeom (width length thickness : ℚ) (edgeStyle : String) : Geom :=
  if edgeStyle = "beveled" then
    createBeveledTableTopGeometry width length thickness
  else if edgeStyle = "rounded" then
    createRoundedTableTopGeometry width length thickness
  else
    Geom.box width thickness length

/-- Embeds `createTableWithStyle(width, length, height, thickness, topMaterial,
legMaterial, edgeStyle, legStyle)` (tableModel.js lines 121–149) as the
list of mesh parts added to `tableModelGroup`: `'l-shape'` short-
circuits everything; otherwise the `TableTop` mesh at
`y = height - thickness/2` followed by the leg parts, with any
`legStyle` other than `'u-shape'`/`'x-shape'` falling through to the
standard legs. -/
def createTableWithStyle (width length height thickness : ℚ)
    (edgeStyle legStyle : String) : List Part :=
  if legStyle = "l-shape" then
    createLShapeTable width length height thickness
  else
    { name := "TableTop"
    , geom := tableTopGeom width length thickness edgeStyle
    , position := ⟨0, height - thickness / 2, 0⟩ }
    :: (if legStyle = "u-shape" then
          createUShapeLegsGeometry width length height thickness
        else if legStyle = "x-shape" then
          createXShapeLegsGeometry width length height thickness
        else
          createStandardLegsGeometry width length height thickness)

/-- A table configuration as read from `appState` by `updateTableModel`
(main.js lines 321–329): dimensions in centimeters, material id and the
two style tags as strings. -/
structure Config where
  width : ℚ
  length : ℚ
  height : ℚ
  thickness : ℚ
  material : String
  edgeStyle : String
  legStyle : String
deriving DecidableEq, Repr

/-- The cm→m conversion and part assembly of `createTable` (tableModel.js
lines 44–47 and 73): each dimension is divided by 100 before
`createTableWithStyle` runs. -/
def createTableParts (config : Config) : List Part :=
  createTableWithStyle (config.width / 100) (config.length / 100)
    (config.height / 100) (config.thickness / 100) config.edgeStyle config.legStyle

/-! ## Units & validation (`src/js/main.js`, `handleDimensionUpdate`,
lines 617–727) -/

/-- The inline validation error surfaced next to the offending control:
the field (`dataset.dimension` of the input) and the human-readable
message written into `.dimension-error-message`. -/
structure ValidationError where
  field : String
  message : String
deriving DecidableEq, Repr

/-- The `switch (dimension)` of `handleDimensionUpdate` (main.js lines
641–666): each dimension is rejected exactly when
`value < min || value > max` for its hard-coded range; a `dimension`
tag outside the four cases leaves `isValid` true. -/
def validateDimension (dimension : String) (value : ℚ) : Option ValidationError :=
  if dimension = "width" then
    if value < 80 ∨ value > 180 then
      some ⟨"width", "Genişlik 80-180 cm arasında olmalıdır"⟩
    else none
  else if dimension = "length" then
    if value < 100 ∨ value > 240 then
      some ⟨"length", "Uzunluk 100-240 cm arasında olmalıdır"⟩
    else none
  else if dimension = "height" then
    if value < 65 ∨ value > 85 then
      some ⟨"height", "Yükseklik 65-85 cm arasında olmalıdır"⟩
    else none
  else if dimension = "thickness" then
    if value < 3 / 10 ∨ value > 5 then
      some ⟨"thickness", "Kalınlık 0.3-5 cm arasında olmalıdır"⟩
    else none
  else none

/-- The dimension fields of the global `appState` (main.js lines
16–34), in centimeters. -/
structure AppDims where
  tableWidth : ℚ
  tableLength : ℚ
  tableHeight : ℚ
  tableThickness : ℚ
deriving DecidableEq, Repr

/-- The state-update `switch (dimension)` of `handleDimensionUpdate`
(main.js lines 701–706). -/
def setDimension (st : AppDims) (dimension : String) (value : ℚ) : AppDims :=
  if dimension = "width" then { st with tableWidth := value }
  else if dimension = "length" then { st with tableLength := value }
  else if dimension = "height" then { st with tableHeight := value }
  else if dimension = "thickness" then { st with tableThickness := value }
  else st

/-- Outcome of one `handleDimensionUpdate` call: the (possibly
unchanged) `appState` dimensions, the single inline error written for
this input event (or `none`), and whether the model rebuild paths
(`throttledModelUpdate`/`debouncedModelUpdate`, main.js lines 723–724)
were reached. -/
structure DimUpdateResult where
  state : AppDims
  error : Option ValidationError
  rebuildScheduled : Bool
deriving DecidableEq, Repr

/-- Embeds `handleDimensionUpdate(sourceInput)` (main.js lines 617–727) for a
numeric `value` (the `isNaN` early-return cannot fire for a rational
input): on a validation failure the function returns before touching
`appState` or scheduling any rebuild (line 677); otherwise it stores
the value and schedules both the throttled and the debounced rebuild. -/
def handleDimensionUpdate (st : AppDims) (dimension : String) (value : ℚ) :
    DimUpdateResult :=
  match validateDimension dimension value with
  | some err => { state := st, error := some err, rebuildScheduled := false }
  | none =>
      { state := setDimension st dimension value
      , error := none
      , rebuildScheduled := true }

/-! ## Persistence restore (`src/js/main.js`,
`loadStateFromLocalStorage`, lines 68–173) -/

/-- The dimension fields of the record parsed from
`localStorage['masaKraftState']`; `none` stands for an absent key. -/
structure SavedDims where
  tableWidth : Option ℚ
  tableLength : Option ℚ
  tableHeight : Option ℚ
  tableThickness : Option ℚ
deriving DecidableEq, Repr

/-- The JS fallback `savedState.x || appState.x` (main.js lines 79–82)
restricted to numeric saved values: an absent key or the falsy number
`0` keeps the current value, any other number is taken verbatim. -/
def orFallback (saved : Option ℚ) (current : ℚ) : ℚ :=
  match saved with
  | none => current
  | some v => if v = 0 then current else v

/-- Outcome of the restore path: the new `appState` dimensions and
whether `updateTableModel()` was invoked (main.js line 150 — it is
called unconditionally once a saved record parses). -/
structure RestoreResult where
  state : AppDims
  rebuildTriggered : Bool
deriving DecidableEq, Repr

/-- Embeds `loadStateFromLocalStorage()` (main.js lines 68–173), dimension
part: each saved field is merged with `savedState.x || appState.x` —
no range check of any kind — and then `updateTableModel()` runs on the
merged state. -/
def loadStateFromLocalStorage (st : AppDims) (saved : SavedDims) : RestoreResult :=
  { state :=
      { tableWidth := orFallback saved.tableWidth st.tableWidth
      , tableLength := orFallback saved.tableLength st.tableLength
      , tableHeight := orFallback saved.tableHeight st.tableHeight
      , tableThickness := orFallback saved.tableThickness st.tableThickness }
  , rebuildTriggered := true }

/-! ## Material resolver (`src/js/modules/materials.js`) -/

/-- One catalog entry: display name, base color, texture path. -/
structure MaterialProps where
  name : String
  color : ℕ
  textureUrl : String
deriving DecidableEq, Repr

/-- The `'ceviz'` entry of `MATERIALS` (materials.js lines 11–15), also
the fallback returned for unknown identifiers. -/
def cevizProps : MaterialProps :=
  ⟨"Ceviz", 0x6A4F3B, "assets/textures/ceviz_wood_texture_dark.jpg"⟩

/-- The fixed `MATERIALS` catalog (materials.js lines 10–41) as an
association list keyed by identifier. -/
def MATERIALS : List (String × MaterialProps) :=
  [ ("ceviz", cevizProps)
  , ("mogano", ⟨"Maun", 0x8C4A3C, "assets/textures/maun_wood_texture_reddish.jpg"⟩)
  , ("mese", ⟨"Meşe", 0xC8B59A, "assets/textures/mese_wood_texture_light.jpg"⟩)
  , ("huş", ⟨"Huş", 0x9A8C78, "assets/textures/hus_wood_texture_greyish.jpg"⟩)
  , ("ebene", ⟨"Abanoz", 0x2A2B27, "assets/textures/abanoz_wood_texture_dark.jpg"⟩)
  , ("geyik", ⟨"Dişbudak", 0x7C6F62, "assets/textures/disbudak_wood_texture_dark_grey.jpg"⟩) ]

/-- Result of `getMaterialProperties`: the resolved entry together with
the number of fallback `console.warn` calls emitted by this
resolution. -/
structure ResolveResult where
  props : MaterialProps
  fallbackWarnings : ℕ
deriving DecidableEq, Repr

/-- Embeds `getMaterialProperties(materialName)` (materials.js lines 43–49):
catalog hit returns the entry with no warning; a miss warns once and
returns `MATERIALS['ceviz']`.  Total for every identifier. -/
def getMaterialProperties (materialName : String) : ResolveResult :=
  match MATERIALS.lookup materialName with
  | some props => ⟨props, 0⟩
  | none => ⟨cevizProps, 1⟩

/-- A realized surface as far as the claims observe it: the material
name set by `createMaterial` and the base color taken from the resolved
entry. -/
structure Material where
  name : String
  color : ℕ
deriving DecidableEq, Repr

/-- Embeds `createMaterial(materialName)` (materials.js lines 51–132): resolves
via `getMaterialProperties` (never fails), then — since every catalog
entry has a non-empty `textureUrl` — builds the textured
`MeshPhysicalMaterial` named `materialName + "_Material"` with the
entry's base color.  The function always returns a material; texture
load failure only degrades it asynchronously later. -/
def createMaterial (materialName : String) : Material × ℕ :=
  let r := getMaterialProperties materialName
  (⟨materialName ++ "_Material", r.props.color⟩, r.fallbackWarnings)

/-- Embeds `createTable` (tableModel.js lines 25–89) viewed as a build result:
material creation (total in this model, as `createMaterial` catches its
own texture errors and throws only if the external `THREE` constructors
do) followed by part assembly.  Returns the built parts together with
the fallback warnings emitted while resolving the top material. -/
def createTableResult (config : Config) : List Part × ℕ :=
  let (_, warnings) := createMaterial config.material
  (createTableParts config, warnings)

/-! ## Annotation overlay (`dimensionLabels.js`, `src/unnamed/part_000`
lines 1–503) -/

/-- The text drawn on a label canvas, `` `${value} cm` ``, kept as its
parsed components (the numeric value and the unit suffix); JS number
formatting is irrelevant to the claims. -/
structure LabelText where
  value : ℚ
  unit : String
deriving DecidableEq, Repr

/-- A label billboard mesh created by `createTextLabel` (part_000 lines
177–223): the identity of its backing `CanvasTexture` object, the text
currently drawn on that canvas, the `map.needsUpdate` re-upload flag,
the mesh position, and the `PlaneGeometry(size*5.0, size*1.2)`
dimensions fixed at creation. -/
structure LabelMesh where
  textureId : ℕ
  text : LabelText
  needsUpload : Bool
  position : Vec3
  planeW : ℚ
  planeH : ℚ
deriving DecidableEq, Repr

/-- A dimension-line mesh: its `BoxGeometry` and position. -/
structure LineMesh where
  geom : Geom
  position : Vec3
deriving DecidableEq, Repr

/-- One dimension indicator: main line, its two end-cap ticks, and the
label billboard. -/
structure DimIndicator where
  main : LineMesh
  endA : LineMesh
  endB : LineMesh
  label : LabelMesh
deriving DecidableEq, Repr

/-- The full `dimensionGroup` contents: one indicator per dimension
(`lineMeshes`/`labelMeshes` of part_000 lines 11–16). -/
structure AnnotationSet where
  widthDim : DimIndicator
  lengthDim : DimIndicator
  heightDim : DimIndicator
deriving DecidableEq, Repr

/-- The `dimensions` record handed to the module (cm values). -/
structure Dims where
  width : ℚ
  length : ℚ
  height : ℚ
deriving DecidableEq, Repr

/-- Embeds `createTextLabel(text, size)` (part_000 lines 177–223): fresh canvas
and `CanvasTexture` (identity `tid`), text drawn, `needsUpdate = true`,
plane `size*5.0 × size*1.2`; position is set by the caller. -/
def createTextLabel (text : LabelText) (size : ℚ) (tid : ℕ) (pos : Vec3) : LabelMesh :=
  { textureId := tid
  , text := text
  , needsUpload := true
  , position := pos
  , planeW := size * 5
  , planeH := size * (12 / 10) }

/-- Embeds `createWidthDimension(width, length, height, widthCm)` (part_000
lines 54–89); `width/length/height` in meters, `widthCm` the cm value
shown on the label; `tid` the identity of the fresh label texture. -/
def createWidthDimension (width length height widthCm : ℚ) (tid : ℕ) : DimIndicator :=
  let offset := max (15 / 100) (width * (15 / 100))
  let lineHeight := max (1 / 100) (width * (2 / 100))
  let endLineLength := max (3 / 100) (width * (8 / 100))
  let labelSize := max (8 / 100) (width * (8 / 100))
  { main :=
      { geom := Geom.box width lineHeight (5 / 1000)
      , position := ⟨0, height + 1 / 100, -(length / 2) - offset⟩ }
  , endA :=
      { geom := Geom.box (5 / 1000) lineHeight endLineLength
      , position := ⟨-(width / 2), height + 1 / 100, -(length / 2) - offset⟩ }
  , endB :=
      { geom := Geom.box (5 / 1000) lineHeight endLineLength
      , position := ⟨width / 2, height + 1 / 100, -(length / 2) - offset⟩ }
  , label := createTextLabel ⟨widthCm, "cm"⟩ labelSize tid
      ⟨0, height + 8 / 100, -(length / 2) - offset⟩ }

/-- Embeds `createLengthDimension(width, length, height, lengthCm)` (part_000
lines 94–129). -/
def createLengthDimension (width length height lengthCm : ℚ) (tid : ℕ) : DimIndicator :=
  let offset := max (15 / 100) (length * (12 / 100))
  let lineHeight := max (1 / 100) (length * (15 / 1000))
  let endLineLength := max (3 / 100) (length * (6 / 100))
  let labelSize := max (8 / 100) (length * (6 / 100))
  { main :=
      { geom := Geom.box (5 / 1000) lineHeight length
      , position := ⟨width / 2 + offset, height + 1 / 100, 0⟩ }
  , endA :=
      { geom := Geom.box endLineLength lineHeight (5 / 1000)
      , position := ⟨width / 2 + offset, height + 1 / 100, -(length / 2)⟩ }
  , endB :=
      { geom := Geom.box endLineLength lineHeight (5 / 1000)
      , position := ⟨width / 2 + offset, height + 1 / 100, length / 2⟩ }
  , label := createTextLabel ⟨lengthCm, "cm"⟩ labelSize tid
      ⟨width / 2 + offset + 8 / 100, height + 8 / 100, 0⟩ }

/-- Embeds `createHeightDimension(width, length, height, heightCm)` (part_000
lines 134–169). -/
def createHeightDimension (width length height heightCm : ℚ) (tid : ℕ) : DimIndicator :=
  let offset := max (20 / 100) (max width length * (15 / 100))
  let lineThickness := max (1 / 100) (height * (2 / 100))
  let endLineLength := max (3 / 100) (height * (8 / 100))
  let labelSize := max (8 / 100) (height * (12 / 100))
  { main :=
      { geom := Geom.box (5 / 1000) height lineThickness
      , position := ⟨-(width / 2) - offset, height / 2, -(length / 2) - offset⟩ }
  , endA :=
      { geom := Geom.box endLineLength (5 / 1000) lineThickness
      , position := ⟨-(width / 2) - offset, 0, -(length / 2) - offset⟩ }
  , endB :=
      { geom := Geom.box endLineLength (5 / 1000) lineThickness
      , position := ⟨-(width / 2) - offset, height, -(length / 2) - offset⟩ }
  , label := createTextLabel ⟨heightCm, "cm"⟩ labelSize tid
      ⟨-(width / 2) - offset - 8 / 100, height / 2, -(length / 2) - offset⟩ }

/-- Embeds `createDimensionLabels(scene, dimensions)` (part_000 lines 25–49),
visible path: converts cm to meters and builds the three indicators;
`baseTid` numbers the three fresh label textures. -/
def createDimensionLabels (dims : Dims) (baseTid : ℕ) : AnnotationSet :=
  let width := dims.width / 100
  let length := dims.length / 100
  let height := dims.height / 100
  { widthDim := createWidthDimension width length height dims.width baseTid
  , lengthDim := createLengthDimension width length height dims.length (baseTid + 1)
  , heightDim := createHeightDimension width length height dims.height (baseTid + 2) }

/-- Embeds `updateSingleLabel(labelMesh, newText)` (part_000 lines 316–344):
clears and redraws the *existing* canvas
(`labelMesh.material.map.image`) with the new text and sets
`labelMesh.material.map.needsUpdate = true`; the `CanvasTexture` object
(and the plane geometry) are untouched. -/
def updateSingleLabel (labelMesh : LabelMesh) (newText : LabelText) : LabelMesh :=
  { labelMesh with text := newText, needsUpload := true }

/-- Embeds `updateLabelTexts()` (part_000 lines 292–309): redraws all three
labels with the current dimension values. -/
def updateLabelTexts (s : AnnotationSet) (cur : Dims) : AnnotationSet :=
  { widthDim := { s.widthDim with label := updateSingleLabel s.widthDim.label ⟨cur.width, "cm"⟩ }
  , lengthDim := { s.lengthDim with label := updateSingleLabel s.lengthDim.label ⟨cur.length, "cm"⟩ }
  , heightDim := { s.heightDim with label := updateSingleLabel s.heightDim.label ⟨cur.height, "cm"⟩ } }

/-- Embeds `updateLabelPositions(dimensions)` (part_000 lines 350–376). -/
def updateLabelPositions (s : AnnotationSet) (dims : Dims) : AnnotationSet :=
  let width := dims.width / 100
  let length := dims.length / 100
  let height := dims.height / 100
  let widthOffset := max (15 / 100) (width * (15 / 100))
  let lengthOffset := max (15 / 100) (length * (12 / 100))
  let heightOffset := max (20 / 100) (max width length * (15 / 100))
  { widthDim := { s.widthDim with label :=
      { s.widthDim.label with position := ⟨0, height + 8 / 100, -(length / 2) - widthOffset⟩ } }
  , lengthDim := { s.lengthDim with label :=
      { s.lengthDim.label with position := ⟨width / 2 + lengthOffset + 8 / 100, height + 8 / 100, 0⟩ } }
  , heightDim := { s.heightDim with label :=
      { s.heightDim.label with position :=
        ⟨-(width / 2) - heightOffset - 8 / 100, height / 2, -(length / 2) - heightOffset⟩ } } }

/-- Embeds `updateLineGeometries(dimensions)` (part_000 lines 382–455): each
line mesh's old geometry is disposed and replaced by a fresh
`BoxGeometry` of the new dimensions and its position reset — the same
formulas as the create path. -/
def updateLineGeometries (s : AnnotationSet) (dims : Dims) : AnnotationSet :=
  let width := dims.width / 100
  let length := dims.length / 100
  let height := dims.height / 100
  let widthOffset := max (15 / 100) (width * (15 / 100))
  let lengthOffset := max (15 / 100) (length * (12 / 100))
  let heightOffset := max (20 / 100) (max width length * (15 / 100))
  let widthLineHeight := max (1 / 100) (width * (2 / 100))
  let lengthLineHeight := max (1 / 100) (length * (15 / 1000))
  let heightLineThickness := max (1 / 100) (height * (2 / 100))
  let widthEndLineLength := max (3 / 100) (width * (8 / 100))
  let lengthEndLineLength := max (3 / 100) (length * (6 / 100))
  let heightEndLineLength := max (3 / 100) (height * (8 / 100))
  { widthDim := { s.widthDim with
      main :=
        { geom := Geom.box width widthLineHeight (5 / 1000)
        , position := ⟨0, height + 1 / 100, -(length / 2) - widthOffset⟩ }
      , endA :=
        { geom := Geom.box (5 / 1000) widthLineHeight widthEndLineLength
        , position := ⟨-(width / 2), height + 1 / 100, -(length / 2) - widthOffset⟩ }
      , endB :=
        { geom := Geom.box (5 / 1000) widthLineHeight widthEndLineLength
        , position := ⟨width / 2, height + 1 / 100, -(length / 2) - widthOffset⟩ } }
  , lengthDim := { s.lengthDim with
      main :=
        { geom := Geom.box (5 / 1000) lengthLineHeight length
        , position := ⟨width / 2 + lengthOffset, height + 1 / 100, 0⟩ }
      , endA :=
        { geom := Geom.box lengthEndLineLength lengthLineHeight (5 / 1000)
        , position := ⟨width / 2 + lengthOffset, height + 1 / 100, -(length / 2)⟩ }
      , endB :=
        { geom := Geom.box lengthEndLineLength lengthLineHeight (5 / 1000)
        , position := ⟨width / 2 + lengthOffset, height + 1 / 100, length / 2⟩ } }
  , heightDim := { s.heightDim with
      main :=
        { geom := Geom.box (5 / 1000) height heightLineThickness
        , position := ⟨-(width / 2) - heightOffset, height / 2, -(length / 2) - heightOffset⟩ }
      , endA :=
        { geom := Geom.box heightEndLineLength (5 / 1000) heightLineThickness
        , position := ⟨-(width / 2) - heightOffset, 0, -(length / 2) - heightOffset⟩ }
      , endB :=
        { geom := Geom.box heightEndLineLength (5 / 1000) heightLineThickness
        , position := ⟨-(width / 2) - heightOffset, height, -(length / 2) - heightOffset⟩ } } }

/-- Embeds `updateDimensionLabels(scene, dimensions)` (part_000 lines 273–287),
the fast-path refresh: when `isLabelsVisible`, store the new
dimensions, redraw label texts, reposition labels, and regenerate line
geometries; when hidden, do nothing. -/
def updateDimensionLabels (isLabelsVisible : Bool) (s : AnnotationSet) (dims : Dims) :
    AnnotationSet :=
  if isLabelsVisible then
    updateLineGeometries (updateLabelPositions (updateLabelTexts s dims) dims) dims
  else s

/-! ## Rebuild lifecycle (`tableModel.js`, `createTable` /
`disposeTableModel`, lines 25–119) -/

/-- Primitive scene/resource events, in the order `createTable` performs
them: `disposeResources g` is the `traverse` in `disposeTableModel`
(lines 93–108) that disposes every mesh's geometry, material and
texture of group `g`; `removeFromScene g` is `scene.remove(...)` plus
`tableModelGroup = null` (lines 109–110); `buildGroup g` is
`new THREE.Group()` plus `createTableWithStyle` populating it (lines
40–73); `attachToScene g` is `scene.add(tableModelGroup)` (line 75). -/
inductive LifecycleEv where
  | disposeResources (g : ℕ)
  | removeFromScene (g : ℕ)
  | buildGroup (g : ℕ)
  | attachToScene (g : ℕ)
deriving DecidableEq, Repr

/-- Scene/module state across rebuild cycles: the ids of the table
groups currently attached to the scene, the module variable
`tableModelGroup`, the ids whose resources have been disposed, and a
supply for fresh group ids. -/
structure SceneState where
  attached : List ℕ
  live : Option ℕ
  disposed : List ℕ
  nextId : ℕ
deriving DecidableEq, Repr

/-- Effect of one primitive event on the scene/module state. -/
def applyEv (st : SceneState) : LifecycleEv → SceneState
  | .disposeResources g => { st with disposed := g :: st.disposed }
  | .removeFromScene g =>
      { st with
        attached := st.attached.filter (· ≠ g),
        live := if st.live = some g then none else st.live }
  | .buildGroup g => { st with live := some g }
  | .attachToScene g => { st with attached := g :: st.attached, nextId := st.nextId + 1 }

/-- Left fold of events over the state. -/
def runEvents (st : SceneState) (evs : List LifecycleEv) : SceneState :=
  evs.foldl applyEv st

/-- The event sequence of one `createTable` call (tableModel.js lines
25–89): `disposeTableModel(scene)` runs first — when a previous group
is live it fully disposes its resources and removes it — and only then
is the new group built and attached. -/
def createTableEvents (st : SceneState) : List LifecycleEv :=
  (match st.live with
   | some g => [.disposeResources g, .removeFromScene g]
   | none => [])
  ++ [.buildGroup st.nextId, .attachToScene st.nextId]

/-- Scene well-formedness between cycles: the scene holds either no
table group or exactly the live one (`tableModelGroup` is the only
group `createTable` ever attaches, and `disposeTableModel` removes
exactly it), and every group ever handed out is older than the id
supply (a fresh `new THREE.Group()` is a distinct object from every
previous group). -/
def SceneInv (st : SceneState) : Prop :=
  match st.live with
  | none => st.attached = []
  | some g => (st.attached = [] ∨ st.attached = [g]) ∧ g < st.nextId

instance : DecidablePred SceneInv := fun st => by
  unfold SceneInv
  cases st.live <;> exact inferInstance

/-- An event is part of the disposal phase. -/
def LifecycleEv.isDisposal : LifecycleEv → Bool
  | .disposeResources _ => true
  | .removeFromScene _ => true
  | _ => false

/-- Comparison definition taken from the SPEC WORDING of claim C2 (not
from the source): the standard-leg layout with the corner inset floored
at 10 cm (`max(10% · min(width, length), 0.10)`) instead of the
source's 5 cm floor; everything else matches the source builder. -/
def specStandardLegsGeometry (width length height thickness : ℚ) : List Part :=
  let legSize := max (4 / 100) (min width length * (5 / 100))
  let legHeight := height - thickness
  let inset := max (10 / 100) (min width length * (10 / 100))
  let legPositions : List Vec3 :=
    [ ⟨width / 2 - inset, legHeight / 2, length / 2 - inset⟩
    , ⟨-(width / 2) + inset, legHeight / 2, length / 2 - inset⟩
    , ⟨width / 2 - inset, legHeight / 2, -(length / 2) + inset⟩
    , ⟨-(width / 2) + inset, legHeight / 2, -(length / 2) + inset⟩ ]
  (legPositions.enum).map fun (index, pos) =>
    { name := "StandardLeg_" ++ toString index
    , geom := Geom.box legSize legHeight legSize
    , position := pos }

/-! ## Theorems -/

/-- Unfolding of the standard-legs builder into its explicit four-part
list (shared helper). -/
lemma createStandardLegsGeometry_eq (width length height thickness : ℚ) :
    createStandardLegsGeometry width length height thickness =
      [ { name := "StandardLeg_0"
        , geom := Geom.box (max (4 / 100) (min width length * (5 / 100)))
            (height - thickness) (max (4 / 100) (min width length * (5 / 100)))
        , position := ⟨width / 2 - max (5 / 100) (min width length * (10 / 100)),
            (height - thickness) / 2,
            length / 2 - max (5 / 100) (min width length * (10 / 100))⟩ }
      , { name := "StandardLeg_1"
        , geom := Geom.box (max (4 / 100) (min width length * (5 / 100)))
            (height - thickness) (max (4 / 100) (min width length * (5 / 100)))
        , position := ⟨-(width / 2) + max (5 / 100) (min width length * (10 / 100)),
            (height - thickness) / 2,
            length / 2 - max (5 / 100) (min width length * (10 / 100))⟩ }
      , { name := "StandardLeg_2"
        , geom := Geom.box (max (4 / 100) (min width length * (5 / 100)))
            (height - thickness) (max (4 / 100) (min width length * (5 / 100)))
        , position := ⟨width / 2 - max (5 / 100) (min width length * (10 / 100)),
            (height - thickness) / 2,
            -(length / 2) + max (5 / 100) (min width length * (10 / 100))⟩ }
      , { name := "StandardLeg_3"
        , geom := Geom.box (max (4 / 100) (min width length * (5 / 100)))
            (height - thickness) (max (4 / 100) (min width length * (5 / 100)))
        , position := ⟨-(width / 2) + max (5 / 100) (min width length * (10 / 100)),
            (height - thickness) / 2,
            -(length / 2) + max (5 / 100) (min width length * (10 / 100))⟩ } ] := rfl

/-- Range bound extracted from an accepting width validation. -/
lemma width_bounds {w : ℚ} (hw : validateDimension "width" w = none) :
    80 ≤ w ∧ w ≤ 180 := by
  simp only [validateDimension, String.reduceEq, reduceIte] at hw
  split at hw
  · exact absurd hw (by simp)
  · rename_i hc
    push_neg at hc
    exact hc

/-- Range bound extracted from an accepting length validation. -/
lemma length_bounds {l : ℚ} (hl : validateDimension "length" l = none) :
    100 ≤ l ∧ l ≤ 240 := by
  simp only [validateDimension, String.reduceEq, reduceIte] at hl
  split at hl
  · exact absurd hl (by simp)
  · rename_i hc
    push_neg at hc
    exact hc

/-- Range bound extracted from an accepting height validation. -/
lemma height_bounds {h : ℚ} (hh : validateDimension "height" h = none) :
    65 ≤ h ∧ h ≤ 85 := by
  simp only [validateDimension, String.reduceEq, reduceIte] at hh
  split at hh
  · exact absurd hh (by simp)
  · rename_i hc
    push_neg at hc
    exact hc

/-- Range bound extracted from an accepting thickness validation. -/
lemma thickness_bounds {t : ℚ} (ht : validateDimension "thickness" t = none) :
    3 / 10 ≤ t ∧ t ≤ 5 := by
  simp only [validateDimension, String.reduceEq, reduceIte] at ht
  split at ht
  · exact absurd ht (by simp)
  · rename_i hc
    push_neg at hc
    exact hc

/-- Event list of a rebuild cycle starting with no live group. -/
lemma createTableEvents_none (a : List ℕ) (d : List ℕ) (n : ℕ) :
    createTableEvents ⟨a, none, d, n⟩ =
      [.buildGroup n, .attachToScene n] := rfl

/-- Event list of a rebuild cycle starting with a live group. -/
lemma createTableEvents_some (a : List ℕ) (d : List ℕ) (n g : ℕ) :
    createTableEvents ⟨a, some g, d, n⟩ =
      [.disposeResources g, .removeFromScene g, .buildGroup n, .attachToScene n] := rfl

/-- C1, counterexample: for the valid configuration width=109,
length=150, height=75, thickness=3 with `edge_style = beveled`, the
tabletop produced by the builder does NOT have bounding box
`width × length × thickness` in meters — the extrusion bevel grows the
envelope (in-plane by `bevelSize + bevelOffset = 0.0015` m per side and
vertically by `bevelThickness = 0.0045` m per face), so the claimed
cross-style envelope invariant fails for the beveled variant. -/
theorem tabletop_envelope_cex :
    ∃ p ∈ createTableParts ⟨109, 150, 75, 3, "ceviz", "beveled", "standard"⟩,
      p.name = "TableTop" ∧ p.geom.bboxSize ≠ ⟨109 / 100, 3 / 100, 150 / 100⟩ := by
  refine ⟨{ name := "TableTop"
          , geom := tableTopGeom (109 / 100) (150 / 100) (3 / 100) "beveled"
          , position := ⟨0, 75 / 100 - 3 / 100 / 2, 0⟩ }, ?_, rfl, ?_⟩
  · simp [createTableParts, createTableWithStyle]
  · simp only [tableTopGeom, createBeveledTableTopGeometry, Geom.bboxSize, reduceIte,
      ne_eq, Vec3.mk.injEq, not_and]
    intro h
    norm_num at h

/-- C1, amended: the tabletop bounding box equals
`width × thickness × length` (meters) exactly for the straight edge
style only; the beveled variant measures
`(width + 0.1·thickness) × (1.3·thickness) × (length + 0.1·thickness)`
and the rounded variant
`(width + 0.16·thickness) × (1.2·thickness) × (length + 0.16·thickness)`
— the bevel operations expand the outer envelope instead of staying
inset. -/
theorem tabletop_envelope_by_edge_style (w l t : ℚ) :
    (tableTopGeom w l t "straight").bboxSize = ⟨w, t, l⟩
    ∧ (tableTopGeom w l t "beveled").bboxSize = ⟨w + t / 10, t * (13 / 10), l + t / 10⟩
    ∧ (tableTopGeom w l t "rounded").bboxSize
        = ⟨w + t * (4 / 25), t * (6 / 5), l + t * (4 / 25)⟩ := by
  refine ⟨rfl, ?_, ?_⟩
  · simp only [tableTopGeom, createBeveledTableTopGeometry, Geom.bboxSize, reduceIte,
      Vec3.mk.injEq]
    constructor
    · ring
    constructor
    · ring
    · ring
  · simp [tableTopGeom, createRoundedTableTopGeometry, Geom.bboxSize, Vec3.mk.injEq]
    constructor
    · ring
    constructor
    · ring
    · ring

/-- C2, counterexample: at the valid configuration width=80,
length=100, height=75, thickness=3, the legs built by the source differ
from the spec-claimed layout — the code floors the corner inset at 5 cm
(`Math.max(0.05, ...)`, giving inset 0.08 m here), not at the claimed
10 cm (which would give 0.10 m). -/
theorem standard_legs_inset_cex :
    createStandardLegsGeometry (80 / 100) (100 / 100) (75 / 100) (3 / 100)
      ≠ specStandardLegsGeometry (80 / 100) (100 / 100) (75 / 100) (3 / 100) := by
  intro h
  have h0 := congrArg (fun ps : List Part => ps.head?.map fun p => p.position.x) h
  simp only [createStandardLegsGeometry, specStandardLegsGeometry, List.enum, List.enumFrom,
    List.map, List.head?, Option.map_some'] at h0
  norm_num [max_def, min_def] at h0

/-- C2, amended: for every configuration passing the width/length range
validation, the four standard posts are inset from each edge by
`max(10% · min(width, length), 5 cm)` — which under the valid ranges
always equals `10% · min(width, length)`, the 5 cm floor never binding
— with square cross-section of side `max(5% · min(width, length), 4 cm)`
and height `height − thickness` (all in meters after the /100
conversion). -/
theorem standard_legs_layout (w l h t : ℚ)
    (hw : validateDimension "width" w = none)
    (hl : validateDimension "length" l = none) :
    max (5 / 100) (min (w / 100) (l / 100) * (10 / 100))
        = min (w / 100) (l / 100) * (10 / 100)
    ∧ createStandardLegsGeometry (w / 100) (l / 100) (h / 100) (t / 100) =
      [ { name := "StandardLeg_0"
        , geom := Geom.box (max (4 / 100) (min (w / 100) (l / 100) * (5 / 100)))
            (h / 100 - t / 100) (max (4 / 100) (min (w / 100) (l / 100) * (5 / 100)))
        , position := ⟨w / 100 / 2 - min (w / 100) (l / 100) * (10 / 100),
            (h / 100 - t / 100) / 2,
            l / 100 / 2 - min (w / 100) (l / 100) * (10 / 100)⟩ }
      , { name := "StandardLeg_1"
        , geom := Geom.box (max (4 / 100) (min (w / 100) (l / 100) * (5 / 100)))
            (h / 100 - t / 100) (max (4 / 100) (min (w / 100) (l / 100) * (5 / 100)))
        , position := ⟨-(w / 100 / 2) + min (w / 100) (l / 100) * (10 / 100),
            (h / 100 - t / 100) / 2,
            l / 100 / 2 - min (w / 100) (l / 100) * (10 / 100)⟩ }
      , { name := "StandardLeg_2"
        , geom := Geom.box (max (4 / 100) (min (w / 100) (l / 100) * (5 / 100)))
            (h / 100 - t / 100) (max (4 / 100) (min (w / 100) (l / 100) * (5 / 100)))
        , position := ⟨w / 100 / 2 - min (w / 100) (l / 100) * (10 / 100),
            (h / 100 - t / 100) / 2,
            -(l / 100 / 2) + min (w / 100) (l / 100) * (10 / 100)⟩ }
      , { name := "StandardLeg_3"
        , geom := Geom.box (max (4 / 100) (min (w / 100) (l / 100) * (5 / 100)))
            (h / 100 - t / 100) (max (4 / 100) (min (w / 100) (l / 100) * (5 / 100)))
        , position := ⟨-(w / 100 / 2) + min (w / 100) (l / 100) * (10 / 100),
            (h / 100 - t / 100) / 2,
            -(l / 100 / 2) + min (w / 100) (l / 100) * (10 / 100)⟩ } ] := by
  have hwb := width_bounds hw
  have hlb := length_bounds hl
  have hmin : (5 / 100 : ℚ) ≤ min (w / 100) (l / 100) * (10 / 100) := by
    rcases min_cases (w / 100) (l / 100) with ⟨hm, _⟩ | ⟨hm, _⟩ <;> rw [hm] <;>
      linarith [hwb.1, hlb.1]
  have hmax := max_eq_right hmin
  exact ⟨hmax, by rw [createStandardLegsGeometry_eq, hmax]⟩

/-- Witness for C2 amended, at width=109 cm, length=150 cm. -/
theorem standard_legs_layout_witness :
    validateDimension "width" 109 = none
    ∧ max (5 / 100) (min ((109 : ℚ) / 100) (150 / 100) * (10 / 100))
        = min ((109 : ℚ) / 100) (150 / 100) * (10 / 100) := by
  have hv : validateDimension "width" 109 = none := by
    simp only [validateDimension, String.reduceEq, reduceIte]
    norm_num
  have hl : validateDimension "length" 150 = none := by
    simp only [validateDimension, String.reduceEq, reduceIte]
    norm_num
  exact ⟨hv, (standard_legs_layout 109 150 75 3 hv hl).1⟩

/-- C3: for any dimensions and edge style, the non-L-shape builds
contain exactly one part named `TableTop`, and totals of 1+4 parts for
`standard`, 1+6 parts for `u-shape` (2 posts per side × 2 sides + 2
connectors) and 1+4 parts for `x-shape` (2 bars per frame × 2
frames). -/
theorem part_counts (w l h t : ℚ) (e : String) :
    ((createTableWithStyle w l h t e "standard").countP (fun p => p.name == "TableTop") = 1
      ∧ (createTableWithStyle w l h t e "standard").length = 1 + 4)
    ∧ ((createTableWithStyle w l h t e "u-shape").countP (fun p => p.name == "TableTop") = 1
      ∧ (createTableWithStyle w l h t e "u-shape").length = 1 + 6)
    ∧ ((createTableWithStyle w l h t e "x-shape").countP (fun p => p.name == "TableTop") = 1
      ∧ (createTableWithStyle w l h t e "x-shape").length = 1 + 4) := by
  refine ⟨⟨?_, ?_⟩, ⟨?_, ?_⟩, ⟨?_, ?_⟩⟩ <;>
    simp [createTableWithStyle, createStandardLegsGeometry_eq, createUShapeLegsGeometry,
      createXShapeLegsGeometry, List.countP, List.countP.go, List.enum, List.enumFrom] <;>
    decide

/-- C4: for width=109, length=150, height=75, thickness=3 with straight
edges and standard legs, the builder divides by 100 and produces
exactly the tabletop `BoxGeometry(1.09, 0.03, 1.50)` (top face at
0.75 m) and four legs of height exactly 0.72 m, at the corner
positions computed from the 0.109 m inset. -/
theorem boundary_scenario_exact :
    createTableParts ⟨109, 150, 75, 3, "ceviz", "straight", "standard"⟩ =
      [ { name := "TableTop"
        , geom := Geom.box (109 / 100) (3 / 100) (150 / 100)
        , position := ⟨0, 147 / 200, 0⟩ }
      , { name := "StandardLeg_0"
        , geom := Geom.box (109 / 2000) (72 / 100) (109 / 2000)
        , position := ⟨109 / 250, 36 / 100, 641 / 1000⟩ }
      , { name := "StandardLeg_1"
        , geom := Geom.box (109 / 2000) (72 / 100) (109 / 2000)
        , position := ⟨-(109 / 250), 36 / 100, 641 / 1000⟩ }
      , { name := "StandardLeg_2"
        , geom := Geom.box (109 / 2000) (72 / 100) (109 / 2000)
        , position := ⟨109 / 250, 36 / 100, -(641 / 1000)⟩ }
      , { name := "StandardLeg_3"
        , geom := Geom.box (109 / 2000) (72 / 100) (109 / 2000)
        , position := ⟨-(109 / 250), 36 / 100, -(641 / 1000)⟩ } ] := by
  simp only [createTableParts, createTableWithStyle, tableTopGeom, String.reduceEq, reduceIte,
    createStandardLegsGeometry_eq, List.cons.injEq, Part.mk.injEq, Vec3.mk.injEq,
    Geom.box.injEq, and_true, List.cons_ne_nil]
  norm_num [max_def, min_def]

/-- C5: for each of the four dimension tags, `handleDimensionUpdate`
accepts a value exactly when it lies in that dimension's fixed range
(width [80,180], length [100,240], height [65,85], thickness [0.3,5]);
on rejection it reports a single error carrying the offending field and
neither alters the stored configuration nor schedules any rebuild. -/
theorem dimension_validation_ranges (st : AppDims) (dim : String) (lo hi value : ℚ)
    (hrange : (dim = "width" ∧ lo = 80 ∧ hi = 180)
      ∨ (dim = "length" ∧ lo = 100 ∧ hi = 240)
      ∨ (dim = "height" ∧ lo = 65 ∧ hi = 85)
      ∨ (dim = "thickness" ∧ lo = 3 / 10 ∧ hi = 5)) :
    ((handleDimensionUpdate st dim value).error = none ↔ lo ≤ value ∧ value ≤ hi)
    ∧ (∀ e, (handleDimensionUpdate st dim value).error = some e →
        e.field = dim
        ∧ (handleDimensionUpdate st dim value).state = st
        ∧ (handleDimensionUpdate st dim value).rebuildScheduled = false) := by
  have main : ∀ msg : String,
      validateDimension dim value =
        (if value < lo ∨ value > hi then some ⟨dim, msg⟩ else none) →
      ((handleDimensionUpdate st dim value).error = none ↔ lo ≤ value ∧ value ≤ hi)
      ∧ (∀ e, (handleDimensionUpdate st dim value).error = some e →
          e.field = dim
          ∧ (handleDimensionUpdate st dim value).state = st
          ∧ (handleDimensionUpdate st dim value).rebuildScheduled = false) := by
    intro msg hval
    by_cases hc : value < lo ∨ value > hi
    · have herr : handleDimensionUpdate st dim value =
          ⟨st, some ⟨dim, msg⟩, false⟩ := by
        simp [handleDimensionUpdate, hval, hc]
      rw [herr]
      refine ⟨?_, ?_⟩
      · refine iff_of_false (by simp) ?_
        intro hb
        rcases hc with hc | hc
        · exact absurd hb.1 (not_le.mpr hc)
        · exact absurd hb.2 (not_le.mpr hc)
      · intro e he
        rw [show (⟨st, some ⟨dim, msg⟩, false⟩ : DimUpdateResult).error
            = some ⟨dim, msg⟩ from rfl, Option.some.injEq] at he
        subst he
        exact ⟨rfl, rfl, rfl⟩
    · have hok : handleDimensionUpdate st dim value =
          ⟨setDimension st dim value, none, true⟩ := by
        simp [handleDimensionUpdate, hval, hc]
      rw [hok]
      push_neg at hc
      refine ⟨by simpa using hc, ?_⟩
      intro e he
      exact absurd he (by simp)
  rcases hrange with ⟨hd, hlo, hhi⟩ | ⟨hd, hlo, hhi⟩ | ⟨hd, hlo, hhi⟩ | ⟨hd, hlo, hhi⟩ <;>
    subst hd <;> subst hlo <;> subst hhi
  · exact main "Genişlik 80-180 cm arasında olmalıdır" (by simp [validateDimension])
  · exact main "Uzunluk 100-240 cm arasında olmalıdır" (by simp [validateDimension])
  · exact main "Yükseklik 65-85 cm arasında olmalıdır" (by simp [validateDimension])
  · exact main "Kalınlık 0.3-5 cm arasında olmalıdır" (by simp [validateDimension])

/-- Witness for C5: width=80 (the minimum) is accepted; width=79.9 is
rejected with the width field reported, the state untouched and no
rebuild scheduled. -/
theorem dimension_validation_ranges_witness :
    (handleDimensionUpdate ⟨109, 150, 75, 3⟩ "width" 80).error = none
    ∧ (handleDimensionUpdate ⟨109, 150, 75, 3⟩ "width" (799 / 10)).error
        = some ⟨"width", "Genişlik 80-180 cm arasında olmalıdır"⟩
    ∧ (handleDimensionUpdate ⟨109, 150, 75, 3⟩ "width" (799 / 10)).state = ⟨109, 150, 75, 3⟩
    ∧ (handleDimensionUpdate ⟨109, 150, 75, 3⟩ "width" (799 / 10)).rebuildScheduled = false := by
  have h1 := dimension_validation_ranges ⟨109, 150, 75, 3⟩ "width" 80 180 80
    (Or.inl ⟨rfl, rfl, rfl⟩)
  have h2 := dimension_validation_ranges ⟨109, 150, 75, 3⟩ "width" 80 180 (799 / 10)
    (Or.inl ⟨rfl, rfl, rfl⟩)
  have he : (handleDimensionUpdate ⟨109, 150, 75, 3⟩ "width" (799 / 10)).error
      = some ⟨"width", "Genişlik 80-180 cm arasında olmalıdır"⟩ := by
    norm_num [handleDimensionUpdate, validateDimension]
  refine ⟨h1.1.mpr (by norm_num), he, (h2.2 _ he).2.1, (h2.2 _ he).2.2⟩

/-- C6: material resolution is total with fallback — an identifier
missing from the catalog resolves to the default `ceviz` entry with
exactly one fallback warning, and the build proceeds exactly as it
would with the default material (same parts, one warning recorded). -/
theorem material_fallback_total (id : String) (cfg : Config)
    (hmiss : MATERIALS.lookup id = none) :
    getMaterialProperties id = ⟨cevizProps, 1⟩
    ∧ (createTableResult { cfg with material := id }).2 = 1
    ∧ (createTableResult { cfg with material := id }).1
        = (createTableResult { cfg with material := "ceviz" }).1 := by
  have hres : getMaterialProperties id = ⟨cevizProps, 1⟩ := by
    simp [getMaterialProperties, hmiss]
  refine ⟨hres, ?_, rfl⟩
  simp [createTableResult, createMaterial, hres]

/-- Witness for C6 at the unknown identifier walnut-typo. -/
theorem material_fallback_total_witness :
    MATERIALS.lookup "walnut-typo" = none
    ∧ getMaterialProperties "walnut-typo" = ⟨cevizProps, 1⟩
    ∧ (createTableResult ⟨109, 150, 75, 3, "walnut-typo", "straight", "standard"⟩).2 = 1 := by
  have hmiss : MATERIALS.lookup "walnut-typo" = none := by decide
  have h := material_fallback_total "walnut-typo"
    ⟨109, 150, 75, 3, "walnut-typo", "straight", "standard"⟩ hmiss
  exact ⟨hmiss, h.1, h.2.1⟩

/-- C7: the fast-path refresh rewrites each label's text to the new
dimension value, flags the backing texture for re-upload, and updates
every label position and every line mesh to exactly the values a full
rebuild at the new dimensions would produce — while the identity of
each label's backing texture object is preserved (never discarded and
recreated). -/
theorem refresh_fast_path (s : AnnotationSet) (dims : Dims) (baseTid : ℕ) :
    let r := updateDimensionLabels true s dims
    let c := createDimensionLabels dims baseTid
    (r.widthDim.label.textureId = s.widthDim.label.textureId
      ∧ r.lengthDim.label.textureId = s.lengthDim.label.textureId
      ∧ r.heightDim.label.textureId = s.heightDim.label.textureId)
    ∧ (r.widthDim.label.text = ⟨dims.width, "cm"⟩
      ∧ r.lengthDim.label.text = ⟨dims.length, "cm"⟩
      ∧ r.heightDim.label.text = ⟨dims.height, "cm"⟩)
    ∧ (r.widthDim.label.needsUpload = true
      ∧ r.lengthDim.label.needsUpload = true
      ∧ r.heightDim.label.needsUpload = true)
    ∧ (r.widthDim.main = c.widthDim.main ∧ r.widthDim.endA = c.widthDim.endA
      ∧ r.widthDim.endB = c.widthDim.endB)
    ∧ (r.lengthDim.main = c.lengthDim.main ∧ r.lengthDim.endA = c.lengthDim.endA
      ∧ r.lengthDim.endB = c.lengthDim.endB)
    ∧ (r.heightDim.main = c.heightDim.main ∧ r.heightDim.endA = c.heightDim.endA
      ∧ r.heightDim.endB = c.heightDim.endB)
    ∧ (r.widthDim.label.position = c.widthDim.label.position
      ∧ r.lengthDim.label.position = c.lengthDim.label.position
      ∧ r.heightDim.label.position = c.heightDim.label.position) := by
  intro r c
  exact ⟨⟨rfl, rfl, rfl⟩, ⟨rfl, rfl, rfl⟩, ⟨rfl, rfl, rfl⟩, ⟨rfl, rfl, rfl⟩,
    ⟨rfl, rfl, rfl⟩, ⟨rfl, rfl, rfl⟩, ⟨rfl, rfl, rfl⟩⟩

/-- C8, counterexample: restoring a persisted width of 999 cm — far
outside the validated [80,180] range, as `validateDimension` itself
attests — stores 999 into the application state and triggers a rebuild:
the restore path runs no range validation at all. -/
theorem restore_skips_validation_cex :
    (loadStateFromLocalStorage ⟨109, 150, 75, 3⟩
        ⟨some 999, none, none, none⟩).state.tableWidth = 999
    ∧ (loadStateFromLocalStorage ⟨109, 150, 75, 3⟩
        ⟨some 999, none, none, none⟩).rebuildTriggered = true
    ∧ validateDimension "width" 999 ≠ none := by
  refine ⟨?_, rfl, ?_⟩
  · norm_num [loadStateFromLocalStorage, orFallback]
  · intro hc
    simp only [validateDimension, String.reduceEq, reduceIte] at hc
    rw [if_pos (by norm_num)] at hc
    exact Option.noConfusion hc

/-- C8, amended: the restore path applies every non-falsy persisted
dimension value verbatim (a JS-falsy saved value falls back to the
current state) and then unconditionally triggers a rebuild — no range
validation is re-run, so out-of-range persisted values are applied. -/
theorem restore_applies_saved_values (st : AppDims) (saved : SavedDims) (v : ℚ)
    (hv : v ≠ 0) :
    (loadStateFromLocalStorage st saved).rebuildTriggered = true
    ∧ (saved.tableWidth = some v →
        (loadStateFromLocalStorage st saved).state.tableWidth = v)
    ∧ (saved.tableLength = some v →
        (loadStateFromLocalStorage st saved).state.tableLength = v)
    ∧ (saved.tableHeight = some v →
        (loadStateFromLocalStorage st saved).state.tableHeight = v)
    ∧ (saved.tableThickness = some v →
        (loadStateFromLocalStorage st saved).state.tableThickness = v) := by
  refine ⟨rfl, ?_, ?_, ?_, ?_⟩ <;> intro hs <;>
    simp [loadStateFromLocalStorage, orFallback, hs, hv]

/-- Witness for C8 amended at the persisted value 999. -/
theorem restore_applies_saved_values_witness :
    (999 : ℚ) ≠ 0
    ∧ (loadStateFromLocalStorage ⟨109, 150, 75, 3⟩
        ⟨some 999, none, none, none⟩).state.tableWidth = 999 := by
  have hv : (999 : ℚ) ≠ 0 := by norm_num
  exact ⟨hv, (restore_applies_saved_values ⟨109, 150, 75, 3⟩
    ⟨some 999, none, none, none⟩ 999 hv).2.1 rfl⟩

/-- C9: a `createTable` cycle starting from a well-formed scene keeps at
most one table assembly attached at every intermediate point; its event
trace consists of the disposal events (resource disposal and scene
removal of the previous live group, when one exists) strictly before
the build-and-attach pair; afterwards the previous group is disposed
and detached, exactly the new group is attached, and the scene is again
well-formed — so any sequence of rebuilds preserves the single-live-
assembly invariant. -/
theorem rebuild_single_live_assembly (st : SceneState) (hinv : SceneInv st) :
    (∀ n, (runEvents st ((createTableEvents st).take n)).attached.length ≤ 1)
    ∧ (∀ e ∈ (createTableEvents st).take ((createTableEvents st).length - 2),
        e.isDisposal = true)
    ∧ (createTableEvents st).drop ((createTableEvents st).length - 2)
        = [.buildGroup st.nextId, .attachToScene st.nextId]
    ∧ (∀ g, st.live = some g →
        LifecycleEv.disposeResources g
            ∈ (createTableEvents st).take ((createTableEvents st).length - 2)
        ∧ g ∈ (runEvents st (createTableEvents st)).disposed
        ∧ g ∉ (runEvents st (createTableEvents st)).attached)
    ∧ (runEvents st (createTableEvents st)).attached = [st.nextId]
    ∧ SceneInv (runEvents st (createTableEvents st)) := by
  obtain ⟨attached, live, disposed, nextId⟩ := st
  cases live with
  | none =>
      have hA : attached = [] := hinv
      subst hA
      rw [createTableEvents_none]
      refine ⟨?_, ?_, rfl, ?_, rfl, ?_⟩
      · intro n
        match n with
        | 0 => simp [runEvents]
        | 1 => simp [runEvents, applyEv]
        | (k + 2) =>
            rw [List.take_of_length_le (by simp)]
            simp [runEvents, applyEv]
      · intro e he
        simp at he
      · intro g hg
        exact absurd hg (by simp)
      · simp [runEvents, applyEv, SceneInv]
  | some g =>
      obtain ⟨hA, hfresh⟩ := hinv
      have hg : g < nextId := hfresh
      rcases hA with hA | hA <;> subst hA <;>
      · rw [createTableEvents_some]
        refine ⟨?_, ?_, rfl, ?_, ?_, ?_⟩
        · intro n
          match n with
          | 0 => simp [runEvents, applyEv]
          | 1 => simp [runEvents, applyEv]
          | 2 => simp [runEvents, applyEv]
          | 3 => simp [runEvents, applyEv]
          | (k + 4) =>
              rw [List.take_of_length_le (by simp)]
              simp [runEvents, applyEv]
        · intro e he
          fin_cases he <;> rfl
        · intro g' hg'
          rw [Option.some.injEq] at hg'
          subst hg'
          refine ⟨by simp, by simp [runEvents, applyEv], ?_⟩
          simp [runEvents, applyEv]
          omega
        · simp [runEvents, applyEv]
        · simp only [runEvents, List.foldl_cons, List.foldl_nil, applyEv]
          simp [SceneInv]

/-- Witness for C9: a scene holding live group 5 rebuilds into a scene
holding exactly the new group 6. -/
theorem rebuild_single_live_assembly_witness :
    SceneInv ⟨[5], some 5, [], 6⟩
    ∧ (runEvents ⟨[5], some 5, [], 6⟩
        (createTableEvents ⟨[5], some 5, [], 6⟩)).attached = [6] := by
  have hinv : SceneInv ⟨[5], some 5, [], 6⟩ := by decide
  exact ⟨hinv, (rebuild_single_live_assembly ⟨[5], some 5, [], 6⟩ hinv).2.2.2.2.1⟩

/-- C10: whenever height and thickness each pass their own range check
(height in [65,85] cm, thickness in [0.3,5] cm), the derived leg height
`height − thickness` (in meters, as every leg builder computes it) is
strictly positive — the disjoint per-field ranges alone make a
non-positive leg height unreachable, with no cross-field check in the
code; in particular every standard leg is a box of exactly that
height. -/
theorem leg_height_positive (w l h t : ℚ)
    (hh : validateDimension "height" h = none)
    (ht : validateDimension "thickness" t = none) :
    0 < h / 100 - t / 100
    ∧ ∀ p ∈ createStandardLegsGeometry (w / 100) (l / 100) (h / 100) (t / 100),
        ∃ s, p.geom = Geom.box s (h / 100 - t / 100) s := by
  have hhb := height_bounds hh
  have htb := thickness_bounds ht
  have hpos : 0 < h / 100 - t / 100 := by
    have h1 := hhb.1
    have h2 := htb.2
    linarith
  refine ⟨hpos, ?_⟩
  rw [createStandardLegsGeometry_eq]
  intro p hp
  simp only [List.mem_cons, List.not_mem_nil, or_false] at hp
  rcases hp with rfl | rfl | rfl | rfl <;> exact ⟨_, rfl⟩

/-- Witness for C10 at height=75 cm, thickness=3 cm. -/
theorem leg_height_positive_witness :
    validateDimension "height" 75 = none
    ∧ validateDimension "thickness" 3 = none
    ∧ (0 : ℚ) < 75 / 100 - 3 / 100 := by
  have hh : validateDimension "height" 75 = none := by
    simp only [validateDimension, String.reduceEq, reduceIte]
    norm_num
  have ht : validateDimension "thickness" 3 = none := by
    simp only [validateDimension, String.reduceEq, reduceIte]
    norm_num
  exact ⟨hh, ht, (leg_height_positive 109 150 75 3 hh ht).1⟩

end Mas2
